import Mathlib

/-!
Verification development for the MyWellness personal wellness-tracking
backend (`backend/server.py`).  The Python request handlers are shallowly
embedded as pure Lean functions over explicit stores (lists of documents)
and explicit clock inputs.  Numbers are modelled as follows: Python `int`
fields become `ℤ`, Python `float` fields become `ℚ`, and Python
`round(x, 2)` becomes `round2` below (round-half-to-even on the scaled
rational, matching the Python builtin `round` on decimal values).
Calendar dates that the code manipulates arithmetically are modelled as
integer day numbers (days since 1970-01-01, which was a Thursday, so
`weekday d = (d + 3) % 7` with Monday = 0, matching `date.weekday()`);
dates that the code only compares lexically as `YYYY-MM-DD` strings are
kept as strings under the lexicographic `String` order, which agrees with
the byte-wise comparison MongoDB applies to these ASCII strings.
Timestamps (`datetime` values) are modelled by their absolute time in
seconds; `timedelta(days=1)` is 86400 seconds (the parsed datetimes carry
fixed UTC offsets, so no DST adjustment exists in the source either).
-/

namespace MyWellness

/-- Round a rational to the nearest integer, ties to even, as the Python
builtin `round` does. -/
def roundHalfEven (q : ℚ) : ℤ :=
  let f : ℤ := ⌊q⌋
  let r : ℚ := q - (f : ℚ)
  if r < 1/2 then f
  else if 1/2 < r then f + 1
  else if f % 2 = 0 then f else f + 1

/-- Model of Python `round(x, 2)` on rationals. -/
def round2 (q : ℚ) : ℚ := ((roundHalfEven (q * 100) : ℤ) : ℚ) / 100

theorem roundHalfEven_intCast (n : ℤ) : roundHalfEven (n : ℚ) = n := by
  simp [roundHalfEven]

/-- Rounding to two decimals is exact on values that already have at most
two decimals. -/
theorem round2_eq_self (q : ℚ) (n : ℤ) (h : q * 100 = (n : ℚ)) : round2 q = q := by
  have h100 : (100 : ℚ) ≠ 0 := by norm_num
  unfold round2
  rw [h, roundHalfEven_intCast]
  field_simp at h ⊢
  linarith [h]

/-! ## Preferences documents

The `user_preferences` collection holds partial documents: the document
created alongside a new user has every field, but a document created by
the upsert in `update_preferences` only has the fields the client
supplied.  Every field other than `user_id` is therefore optional, and
reads go through `prefGet`, the model of
`prefs.get(key, default) if prefs else default`. -/

structure PrefsDoc where
  user_id : String
  target_sleep_hours : Option ℚ := none
  usual_sleep_time : Option String := none
  usual_wake_time : Option String := none
  late_night_days : Option (List String) := none
  daily_calorie_goal : Option ℤ := none
  daily_protein_goal : Option ℤ := none
  setup_completed : Option Bool := none
deriving DecidableEq, Repr

/-- Model of `prefs.get(key, default) if prefs else default`. -/
def prefGet {α : Type} (prefs : Option PrefsDoc) (field : PrefsDoc → Option α)
    (dflt : α) : α :=
  match prefs with
  | none => dflt
  | some p => (field p).getD dflt

/-- The default preferences document inserted by `create_session` for a
new user (`server.py` lines 202-211). -/
def defaultPrefsDoc (uid : String) : PrefsDoc :=
  { user_id := uid
    target_sleep_hours := some (15/2)
    usual_sleep_time := some "23:00"
    usual_wake_time := some "06:30"
    late_night_days := some []
    daily_calorie_goal := some 2000
    daily_protein_goal := some 100
    setup_completed := some false }

/-! ## Log documents (the fields the aggregation endpoints read) -/

structure ExerciseDoc where
  id : String
  exercise_type : String
  duration_minutes : ℤ
  date : String
deriving DecidableEq, Repr

structure SleepDoc where
  id : String
  hours_slept : ℚ
  date : ℤ
deriving DecidableEq, Repr

structure AlcoholDoc where
  id : String
  drink_name : String
  standard_drinks : ℚ
  date : String
deriving DecidableEq, Repr

structure NutritionDoc where
  id : String
  calories : ℤ
  protein : ℚ
  date : String
deriving DecidableEq, Repr

/-! ## Dashboard completion scorer (`get_completion`, lines 761-802)

The handler fetches the logs of the queried day for the four scored dimensions
(each already filtered by `user_id` and exact `date` in the store query)
plus the preferences document; the function below takes those query
results as arguments and performs the scoring arithmetic of the source. -/

structure Completion where
  exercise_done : Bool
  exercise_percentage : ℕ
  sleep_consistent : Bool
  sleep_percentage : ℕ
  sleep_hours : ℚ
  alcohol_healthy : Bool
  alcohol_percentage : ℕ
  alcohol_standard_drinks : ℚ
  nutrition_hit : Bool
  nutrition_percentage : ℕ
  nutrition_calories : ℤ
  nutrition_protein : ℚ
  total_percentage : ℕ
deriving DecidableEq, Repr

def get_completion (prefs : Option PrefsDoc) (exerciseLogs : List ExerciseDoc)
    (sleepLogs : List SleepDoc) (alcoholLogs : List AlcoholDoc)
    (nutritionLogs : List NutritionDoc) : Completion :=
  let target_sleep : ℚ := prefGet prefs (·.target_sleep_hours) (15/2)
  let calorie_goal : ℤ := prefGet prefs (·.daily_calorie_goal) 2000
  let protein_goal : ℤ := prefGet prefs (·.daily_protein_goal) 100
  let exercise_done : Bool := exerciseLogs.length > 0
  let total_sleep : ℚ := (sleepLogs.map (·.hours_slept)).sum
  let sleep_consistent : Bool :=
    if sleepLogs.isEmpty then false
    else decide (|total_sleep - target_sleep| ≤ 3/2)
  let total_drinks : ℚ := (alcoholLogs.map (·.standard_drinks)).sum
  let alcohol_healthy : Bool := decide (total_drinks ≤ 2)
  let total_calories : ℤ := (nutritionLogs.map (·.calories)).sum
  let total_protein : ℚ := (nutritionLogs.map (·.protein)).sum
  let nutrition_hit : Bool :=
    decide ((calorie_goal : ℚ) * (9/10) ≤ (total_calories : ℚ)
      ∧ (total_calories : ℚ) ≤ (calorie_goal : ℚ) * (11/10)
      ∧ total_protein ≥ (protein_goal : ℚ) * (9/10))
  { exercise_done := exercise_done
    exercise_percentage := if exercise_done then 25 else 0
    sleep_consistent := sleep_consistent
    sleep_percentage := if sleep_consistent then 25 else 0
    sleep_hours := total_sleep
    alcohol_healthy := alcohol_healthy
    alcohol_percentage := if alcohol_healthy then 25 else 0
    alcohol_standard_drinks := total_drinks
    nutrition_hit := nutrition_hit
    nutrition_percentage := if nutrition_hit then 25 else 0
    nutrition_calories := total_calories
    nutrition_protein := total_protein
    total_percentage := (if exercise_done then 25 else 0)
      + (if sleep_consistent then 25 else 0)
      + (if alcohol_healthy then 25 else 0)
      + (if nutrition_hit then 25 else 0) }

/-- Sleep-dimension score as worded by the spec (for the refinement
comparison in claim C1): 25 points whenever the day total is within 1.5
hours of the target, the rule being evaluated on a 0 total when there are
no logs. -/
def specSleepScore (target : ℚ) (sleepLogs : List SleepDoc) : ℕ :=
  if |(sleepLogs.map (·.hours_slept)).sum - target| ≤ 3/2 then 25 else 0

/-! ## Sleep debt aggregator (`get_sleep_debt`, lines 485-510)

The handler queries sleep logs of the current ISO week: `week_start` is
`today - today.weekday()` days, and the store filter keeps
`week_start <= date <= today`.  Days are integer day numbers, and
1970-01-01 (day 0) was a Thursday, so `weekday d = (d + 3) % 7` with
Monday = 0, exactly the Python `date.weekday()` convention. -/

def weekday (d : ℤ) : ℤ := (d + 3) % 7

def weekStart (today : ℤ) : ℤ := today - weekday today

structure SleepDebtResp where
  target_per_day : ℚ
  days_logged : ℕ
  total_slept : ℚ
  target_total : ℚ
  debt : ℚ
  surplus : ℚ
deriving DecidableEq, Repr

/-- The logs of the requesting user that the `/sleep/debt` store query
returns: those dated between the Monday of the current ISO week and
today, inclusive. -/
def sleepWeekLogs (today : ℤ) (logs : List SleepDoc) : List SleepDoc :=
  logs.filter (fun l => decide (weekStart today ≤ l.date) && decide (l.date ≤ today))

def get_sleep_debt (prefs : Option PrefsDoc) (today : ℤ)
    (logs : List SleepDoc) : SleepDebtResp :=
  let target : ℚ := prefGet prefs (·.target_sleep_hours) (15/2)
  let week := sleepWeekLogs today logs
  let days_logged : ℕ := week.length
  let total_slept : ℚ := (week.map (·.hours_slept)).sum
  let target_total : ℚ := (days_logged : ℚ) * target
  let debt : ℚ := target_total - total_slept
  { target_per_day := target
    days_logged := days_logged
    total_slept := round2 total_slept
    target_total := round2 target_total
    debt := round2 (max 0 debt)
    surplus := round2 (max 0 (-debt)) }

/-! ## Sleep log creation (`log_sleep`, lines 450-472)

The parsed `sleep_time` and `wake_time` datetimes are modelled by their
absolute time in seconds (a naive datetime by its wall-clock seconds, an
offset-bearing one by its UTC instant; the source subtracts and compares
the parsed values directly, which on either kind is exactly this
arithmetic).  `timedelta(days=1)` is 86400 seconds, since the parsed
values carry fixed offsets and no DST rule exists. -/

structure StoredSleepLog where
  user_id : String
  sleep_time : ℤ
  wake_time : ℤ
  hours_slept : ℚ
  date : String
deriving DecidableEq, Repr

def log_sleep (uid : String) (sleep_time wake_time : ℤ) (date : String) :
    StoredSleepLog :=
  let wake := if wake_time ≤ sleep_time then wake_time + 86400 else wake_time
  let hours_slept : ℚ := ((wake - sleep_time : ℤ) : ℚ) / 3600
  { user_id := uid
    sleep_time := sleep_time
    wake_time := wake
    hours_slept := round2 hours_slept
    date := date }

/-! ## Spending summary (`get_spending_summary`, lines 652-686)

The month window endpoints manipulate dates as strings, so dates stay
strings here and the store range filter uses the lexicographic order on
`String` (what MongoDB applies to these ASCII strings).  `month.split`
and `int(...)` from the source are modelled by `splitDash` and
`parseInt?`; a parse failure (`ValueError`, an unpacking error) escapes
the handler, which the model renders as `none` (an HTTP 500). -/

structure SpendingDoc where
  id : String
  user_id : String
  amount : ℚ
  category : String
  date : String
deriving DecidableEq, Repr

/-- Python `s.split(sep)` for a one-character separator, on the
character list: split at every occurrence, keeping empty pieces. -/
def splitOnChar (sep : Char) : List Char → List (List Char)
  | [] => [[]]
  | c :: cs =>
    if c = sep then [] :: splitOnChar sep cs
    else
      match splitOnChar sep cs with
      | [] => [[c]]
      | g :: gs => (c :: g) :: gs

/-- Python `s.split("-")` on the character list. -/
def splitDash : List Char → List (List Char) := splitOnChar '-'

def digitsToNat? : List Char → Option ℕ
  | [] => none
  | cs =>
    if cs.all (·.isDigit) then
      some (cs.foldl (fun acc c => acc * 10 + (c.toNat - 48)) 0)
    else none

/-- Python `int(s)` on a string: optional sign followed by digits. -/
def parseInt? (s : String) : Option ℤ :=
  match s.toList with
  | '-' :: cs => (digitsToNat? cs).map (fun n => -(n : ℤ))
  | '+' :: cs => (digitsToNat? cs).map (fun n => (n : ℤ))
  | cs => (digitsToNat? cs).map (fun n => (n : ℤ))

/-- Python f-string `{n:02d}`. -/
def pad2 (n : ℤ) : String :=
  if 0 ≤ n ∧ n < 10 then "0" ++ toString n else toString n

/-- Four-digit year as printed by `date.isoformat()`. -/
def pad4 (n : ℕ) : String :=
  if n < 10 then "000" ++ toString n
  else if n < 100 then "00" ++ toString n
  else if n < 1000 then "0" ++ toString n
  else toString n

def isoDate (y m d : ℕ) : String := pad4 y ++ "-" ++ pad2 m ++ "-" ++ pad2 d

/-- The `[start_date, end_date]` pair computed for an explicit `month`
parameter (`none` models the `ValueError` a malformed parameter raises):
start is the first of the month, end is the FIRST DAY OF THE FOLLOWING
month, and the store filter below treats both bounds inclusively. -/
def monthWindow (month : String) : Option (String × String) :=
  match (splitDash month.toList).map (fun cs => String.mk cs) with
  | [year, m] =>
    match parseInt? m with
    | none => none
    | some mi =>
      let start := year ++ "-" ++ m ++ "-01"
      if mi = 12 then
        match parseInt? year with
        | none => none
        | some yi => some (start, toString (yi + 1) ++ "-01-01")
      else
        some (start, year ++ "-" ++ pad2 (mi + 1) ++ "-01")
  | _ => none

structure SpendingSummary where
  total : ℚ
  by_category : String → ℚ
  daily_totals : String → ℚ

/-- The documents the summary query returns: the logs of the requesting user
whose `date` string lies between the two bounds, both inclusive. -/
def spendingWindowLogs (uid start stop : String) (logs : List SpendingDoc) :
    List SpendingDoc :=
  logs.filter (fun l =>
    l.user_id == uid && decide (start ≤ l.date) && decide (l.date ≤ stop))

def spendingAggregate (sel : List SpendingDoc) : SpendingSummary :=
  { total := round2 ((sel.map (·.amount)).sum)
    by_category := fun c => (((sel.filter (·.category == c)).map (·.amount)).sum)
    daily_totals := fun d => (((sel.filter (·.date == d)).map (·.amount)).sum) }

/-- Full handler: explicit `month` parameter or the current month from
the 1st through today (`today` given as year, month, day). -/
def get_spending_summary (month : Option String) (ty tm td : ℕ) (uid : String)
    (logs : List SpendingDoc) : Option SpendingSummary :=
  let window : Option (String × String) :=
    match month with
    | some ms => monthWindow ms
    | none => some (isoDate ty tm 1, isoDate ty tm td)
  window.map (fun w => spendingAggregate (spendingWindowLogs uid w.1 w.2 logs))

/-- Membership in a calendar month as worded by the spec (for the
refinement comparison in claim C4): a `YYYY-MM-DD` date lies in the
`YYYY-MM` month exactly when its first seven characters are that month. -/
def specInMonth (month date : String) : Bool := date.take 7 == month

/-- Grand total over exactly the logs of the calendar month, as the spec
words the explicit-month window. -/
def specMonthTotal (month uid : String) (logs : List SpendingDoc) : ℚ :=
  (((logs.filter (fun l => l.user_id == uid && specInMonth month l.date)).map
    (·.amount)).sum)

/-! ## Nutrition log creation (`log_nutrition`, lines 521-565)

The adapter call, the regex search for a single brace-delimited
substring, and `json.loads` all happen inside one `try` block whose
`except` zeroes the three derived fields.  The possible outcomes of that
block are modelled by `AdapterOutcome`:
`raises` covers a raised or timed-out adapter call and a `json.loads`
failure; `noJsonObject` covers a response without a brace-delimited
substring (the `else` branch); `parsed` carries the decoded object,
whose three relevant keys may each be absent or hold a JSON number,
boolean, or null (string, array, and nested-object values are outside
the model).  Field extraction uses `.get` with defaults 0, 0, `False`.
The `NutritionLog(...)` pydantic construction happens AFTER the `try`
block: coercion of the extracted values to `int`, `float`, `bool`
follows the pydantic lax rules (`coerceInt`: integral numbers only;
`coerceFloat`: any number; `coerceBool`: booleans and 0/1), and a
coercion failure raises a `ValidationError` that no handler catches,
an HTTP 500 with nothing persisted — modelled by `response = none`. -/

inductive JVal where
  | num (q : ℚ)
  | bool (b : Bool)
  | null
deriving DecidableEq, Repr

structure ParsedNutrition where
  calories : Option JVal
  protein : Option JVal
  is_healthy : Option JVal
deriving DecidableEq, Repr

inductive AdapterOutcome where
  | raises
  | noJsonObject
  | parsed (o : ParsedNutrition)
deriving DecidableEq, Repr

/-- The `(calories, protein, is_healthy)` values held by the Python
variables right after the `try` block. -/
def extractFields : AdapterOutcome → JVal × JVal × JVal
  | .raises => (.num 0, .num 0, .bool false)
  | .noJsonObject => (.num 0, .num 0, .bool false)
  | .parsed o =>
    (o.calories.getD (.num 0), o.protein.getD (.num 0),
     o.is_healthy.getD (.bool false))

/-- Pydantic lax coercion to an `int` field. -/
def coerceInt : JVal → Option ℤ
  | .num q => if q.den = 1 then some q.num else none
  | .bool _ => none
  | .null => none

/-- Pydantic lax coercion to a `float` field. -/
def coerceFloat : JVal → Option ℚ
  | .num q => some q
  | .bool _ => none
  | .null => none

/-- Pydantic lax coercion to a `bool` field. -/
def coerceBool : JVal → Option Bool
  | .bool b => some b
  | .num q => if q = 0 then some false else if q = 1 then some true else none
  | .null => none

structure NutritionRecord where
  user_id : String
  meal_description : String
  calories : ℤ
  protein : ℚ
  is_healthy : Bool
  meal_type : String
  date : String
deriving DecidableEq, Repr

structure NutritionCreate where
  meal_description : String
  meal_type : String
  date : String
deriving DecidableEq, Repr

structure NutritionResult where
  response : Option NutritionRecord
  store : List NutritionRecord
deriving DecidableEq, Repr

def log_nutrition (uid : String) (req : NutritionCreate)
    (outcome : AdapterOutcome) (store : List NutritionRecord) :
    NutritionResult :=
  let f := extractFields outcome
  match coerceInt f.1, coerceFloat f.2.1, coerceBool f.2.2 with
  | some c, some p, some h =>
    let rec_ : NutritionRecord :=
      { user_id := uid
        meal_description := req.meal_description
        calories := c
        protein := p
        is_healthy := h
        meal_type := req.meal_type
        date := req.date }
    { response := some rec_, store := store ++ [rec_] }
  | _, _, _ => { response := none, store := store }

/-! ## Session authenticator (`get_current_user`, lines 147-173)

Token extraction, session lookup, expiry check, user lookup, in that
order.  `expires_at` stands for the absolute UTC instant in seconds
after the normalization the source performs (ISO string parsing, naive
values tagged as UTC). -/

structure Session where
  user_id : String
  session_token : String
  expires_at : ℤ
deriving DecidableEq, Repr

structure UserRec where
  user_id : String
  email : String
  name : String
  picture : Option String
deriving DecidableEq, Repr

inductive AuthError where
  | unauthenticated
  | invalidSession
  | sessionExpired
  | userNotFound
deriving DecidableEq, Repr

/-- Every authentication failure is raised as HTTP 401. -/
def authStatus : AuthError → ℕ
  | .unauthenticated => 401
  | .invalidSession => 401
  | .sessionExpired => 401
  | .userNotFound => 401

/-- Token extraction: the cookie wins when non-empty (Python truthiness),
else the second word of a `Bearer ` authorization header, an empty
result counting as no token. -/
def extractToken (cookie authHeader : Option String) : Option String :=
  let fromCookie : Option String :=
    match cookie with
    | some t => if t = "" then none else some t
    | none => none
  match fromCookie with
  | some t => some t
  | none =>
    match authHeader with
    | some h =>
      if ("Bearer ".toList).isPrefixOf h.toList then
        let tok := String.mk ((splitOnChar ' ' h.toList).getD 1 [])
        if tok = "" then none else some tok
      else none
    | none => none

def get_current_user (cookie authHeader : Option String)
    (sessions : List Session) (users : List UserRec) (now : ℤ) :
    Except AuthError UserRec :=
  match extractToken cookie authHeader with
  | none => .error .unauthenticated
  | some tok =>
    match sessions.find? (·.session_token == tok) with
    | none => .error .invalidSession
    | some s =>
      if s.expires_at < now then .error .sessionExpired
      else
        match users.find? (·.user_id == s.user_id) with
        | none => .error .userNotFound
        | some u => .ok u

/-! ## Session creation (`create_session`, lines 177-237)

After a successful exchange with the identity provider (its result is
the `ExchangeData` argument; a failed exchange returns 401 before any
store write and does not concern these claims), the handler reuses the
`user_id` of an existing user with the same email or inserts a new user
plus default preferences under a freshly generated id (the `freshId`
argument), then deletes every session of that user and inserts the new
one. -/

structure ExchangeData where
  email : String
  name : String
  picture : Option String
  session_token : String
deriving DecidableEq, Repr

structure DBState where
  users : List UserRec
  prefs : List PrefsDoc
  sessions : List Session
deriving DecidableEq, Repr

def emptyDB : DBState := { users := [], prefs := [], sessions := [] }

def create_session (d : ExchangeData) (freshId : String) (expiresAt : ℤ)
    (st : DBState) : DBState × String :=
  match st.users.find? (·.email == d.email) with
  | some u =>
    let newSession : Session := ⟨u.user_id, d.session_token, expiresAt⟩
    let sessions' := st.sessions.filter (fun s => s.user_id != u.user_id)
      ++ [newSession]
    ({ st with sessions := sessions' }, u.user_id)
  | none =>
    let newUser : UserRec := ⟨freshId, d.email, d.name, d.picture⟩
    let newSession : Session := ⟨freshId, d.session_token, expiresAt⟩
    let sessions' := st.sessions.filter (fun s => s.user_id != freshId)
      ++ [newSession]
    (⟨st.users ++ [newUser], st.prefs ++ [defaultPrefsDoc freshId], sessions'⟩,
     freshId)

/-- A whole sequence of successful session creations, applied in order. -/
def runSessions : List (ExchangeData × String × ℤ) → DBState → DBState
  | [], st => st
  | (d, f, e) :: rest, st => runSessions rest (create_session d f e st).1

def sessionsOf (uid : String) (st : DBState) : List Session :=
  st.sessions.filter (·.user_id == uid)

def atMostOneSession (st : DBState) : Prop :=
  ∀ uid, (sessionsOf uid st).length ≤ 1

/-! ## Log deletion (`delete_alcohol_log` lines 441-446,
`delete_sleep_log`, `delete_nutrition_log`, `delete_spending_log`,
`delete_exercise_log` lines 752-757 — five structurally identical
handlers over documents keyed by `id` and `user_id`)

`delete_one` removes the first document matching both keys; a deleted
count of zero raises HTTP 404. -/

structure LogDoc where
  id : String
  user_id : String
deriving DecidableEq, Repr

structure DeleteResult where
  notFound : Bool
  store : List LogDoc
deriving DecidableEq, Repr

def delete_log (logId uid : String) (store : List LogDoc) : DeleteResult :=
  let m : LogDoc → Bool := fun dcm => dcm.id == logId && dcm.user_id == uid
  if store.any m then { notFound := false, store := store.eraseP m }
  else { notFound := true, store := store }

/-! ## Preferences endpoints (`get_preferences` lines 252-257,
`update_preferences` lines 259-268)

The update builds the dictionary of non-null supplied fields and issues
an upsert: when a document with this `user_id` exists, `$set` overwrites
exactly the supplied fields of the first match; otherwise the inserted
document holds the filter key `user_id` plus the supplied fields and
nothing else. -/

structure PreferencesUpdate where
  target_sleep_hours : Option ℚ := none
  usual_sleep_time : Option String := none
  usual_wake_time : Option String := none
  late_night_days : Option (List String) := none
  daily_calorie_goal : Option ℤ := none
  daily_protein_goal : Option ℤ := none
  setup_completed : Option Bool := none
deriving DecidableEq, Repr

/-- Mongo `$set` of the non-null update fields on an existing document. -/
def applySet (d : PrefsDoc) (u : PreferencesUpdate) : PrefsDoc :=
  { user_id := d.user_id
    target_sleep_hours := u.target_sleep_hours.orElse (fun _ => d.target_sleep_hours)
    usual_sleep_time := u.usual_sleep_time.orElse (fun _ => d.usual_sleep_time)
    usual_wake_time := u.usual_wake_time.orElse (fun _ => d.usual_wake_time)
    late_night_days := u.late_night_days.orElse (fun _ => d.late_night_days)
    daily_calorie_goal := u.daily_calorie_goal.orElse (fun _ => d.daily_calorie_goal)
    daily_protein_goal := u.daily_protein_goal.orElse (fun _ => d.daily_protein_goal)
    setup_completed := u.setup_completed.orElse (fun _ => d.setup_completed) }

/-- The document a Mongo upsert inserts when no document matched: the
equality filter key plus the `$set` fields. -/
def upsertDoc (uid : String) (u : PreferencesUpdate) : PrefsDoc :=
  { user_id := uid
    target_sleep_hours := u.target_sleep_hours
    usual_sleep_time := u.usual_sleep_time
    usual_wake_time := u.usual_wake_time
    late_night_days := u.late_night_days
    daily_calorie_goal := u.daily_calorie_goal
    daily_protein_goal := u.daily_protein_goal
    setup_completed := u.setup_completed }

def setFirstPrefs (uid : String) (u : PreferencesUpdate) :
    List PrefsDoc → List PrefsDoc
  | [] => []
  | d :: rest =>
    if d.user_id == uid then applySet d u :: rest
    else d :: setFirstPrefs uid u rest

def update_preferences (uid : String) (u : PreferencesUpdate)
    (store : List PrefsDoc) : List PrefsDoc :=
  if store.any (·.user_id == uid) then setFirstPrefs uid u store
  else store ++ [upsertDoc uid u]

/-- Response of `GET /preferences`: the stored document, or the fallback
body with just the user id and a false setup flag — both HTTP 200. -/
inductive GetPrefsResult where
  | noDoc (user_id : String) (setup_completed : Bool)
  | doc (d : PrefsDoc)
deriving DecidableEq, Repr

def get_preferences (uid : String) (store : List PrefsDoc) : GetPrefsResult :=
  match store.find? (·.user_id == uid) with
  | none => .noDoc uid false
  | some d => .doc d

/-! # Theorems -/

/-- Helper: a sum of four 25-or-0 summands takes one of five values. -/
theorem score_sum_cases (a b c d : Bool) :
    (if a then 25 else 0) + (if b then 25 else 0) + (if c then 25 else 0)
      + (if d then 25 else 0) = 0
    ∨ (if a then 25 else 0) + (if b then 25 else 0) + (if c then 25 else 0)
      + (if d then 25 else 0) = 25
    ∨ (if a then 25 else 0) + (if b then 25 else 0) + (if c then 25 else 0)
      + (if d then 25 else 0) = 50
    ∨ (if a then 25 else 0) + (if b then 25 else 0) + (if c then 25 else 0)
      + (if d then 25 else 0) = 75
    ∨ (if a then 25 else 0) + (if b then 25 else 0) + (if c then 25 else 0)
      + (if d then 25 else 0) = (100 : ℕ) := by
  cases a <;> cases b <;> cases c <;> cases d <;> simp

/-- Claim C1, counterexample: for a user whose target_sleep_hours is 1
and who has no sleep logs on the queried day, the code scores the sleep
dimension 0, while the claimed rule (evaluate |total − target| ≤ 1.5 on
the zero total) awards 25. -/
theorem sleep_score_claim_false :
    (get_completion (some { user_id := "u", target_sleep_hours := some 1 })
        [] [] [] []).sleep_percentage
      ≠ specSleepScore 1 [] := by
  simp [get_completion, specSleepScore, prefGet]
  norm_num

/-- Claim C1 (amended): the sleep dimension of GET /dashboard/completion
awards 25 points exactly when at least one sleep log exists on the
queried day and the day total is within 1.5 hours of the target; with
zero sleep logs it awards 0 regardless of the target (and it never
awards anything other than 0 or 25). -/
theorem sleep_score_amended (prefs : Option PrefsDoc)
    (ex : List ExerciseDoc) (sl : List SleepDoc) (al : List AlcoholDoc)
    (nu : List NutritionDoc) :
    ((get_completion prefs ex sl al nu).sleep_percentage = 25 ↔
      sl ≠ [] ∧ |(sl.map (·.hours_slept)).sum
        - prefGet prefs (·.target_sleep_hours) (15/2)| ≤ 3/2)
    ∧ (sl = [] → (get_completion prefs ex sl al nu).sleep_percentage = 0)
    ∧ ((get_completion prefs ex sl al nu).sleep_percentage = 25
       ∨ (get_completion prefs ex sl al nu).sleep_percentage = 0) := by
  refine ⟨?_, ?_, ?_⟩
  · simp only [get_completion]
    rcases sl with _ | ⟨h, t⟩
    · simp
    · simp
  · intro hsl
    subst hsl
    simp [get_completion]
  · simp only [get_completion]
    rcases sl with _ | ⟨h, t⟩
    · simp
    · simp
      exact le_or_lt _ _

/-- Claim C1 witness: with the default target of 7.5 hours and a single
7-hour log the amended rule awards 25. -/
theorem sleep_score_amended_witness :
    (get_completion (some (defaultPrefsDoc "u")) [] [⟨"a", 7, 0⟩] []
      []).sleep_percentage = 25 :=
  (sleep_score_amended (some (defaultPrefsDoc "u")) [] [⟨"a", 7, 0⟩] [] []).1.mpr
    ⟨by simp, by simp [prefGet, defaultPrefsDoc, abs_le]; norm_num⟩

/-- Claim C3: with a 7.5-hour sleep target and positive calorie and
protein goals, a day with no logs at all scores exercise 0, sleep 0,
alcohol 25 (an empty drink sum passes the ≤ 2 check), nutrition 0, and
total 25; moreover, on every input the total percentage equals the sum
of the four dimension percentages and lies in {0, 25, 50, 75, 100}. -/
theorem completion_empty_day_and_total :
    (∀ prefs : Option PrefsDoc,
      prefGet prefs (·.target_sleep_hours) (15/2) = 15/2 →
      0 < prefGet prefs (·.daily_calorie_goal) 2000 →
      0 < prefGet prefs (·.daily_protein_goal) 100 →
      get_completion prefs [] [] [] [] =
        ⟨false, 0, false, 0, 0, true, 25, 0, false, 0, 0, 0, 25⟩)
    ∧ (∀ (prefs : Option PrefsDoc) (ex : List ExerciseDoc)
        (sl : List SleepDoc) (al : List AlcoholDoc) (nu : List NutritionDoc),
        (get_completion prefs ex sl al nu).total_percentage =
          (get_completion prefs ex sl al nu).exercise_percentage
          + (get_completion prefs ex sl al nu).sleep_percentage
          + (get_completion prefs ex sl al nu).alcohol_percentage
          + (get_completion prefs ex sl al nu).nutrition_percentage
        ∧ ((get_completion prefs ex sl al nu).total_percentage = 0
          ∨ (get_completion prefs ex sl al nu).total_percentage = 25
          ∨ (get_completion prefs ex sl al nu).total_percentage = 50
          ∨ (get_completion prefs ex sl al nu).total_percentage = 75
          ∨ (get_completion prefs ex sl al nu).total_percentage = 100)) := by
  constructor
  · intro prefs ht hc hp
    simp [get_completion, ht]
    intro _ _
    exact hp
  · intro prefs ex sl al nu
    refine ⟨rfl, ?_⟩
    exact score_sum_cases _ _ _ _

/-- Claim C3 witness: the empty-day score at the literal default
preferences document. -/
theorem completion_empty_day_witness :
    get_completion (some (defaultPrefsDoc "u")) [] [] [] [] =
      ⟨false, 0, false, 0, 0, true, 25, 0, false, 0, 0, 0, 25⟩ :=
  completion_empty_day_and_total.1 (some (defaultPrefsDoc "u"))
    (by simp [prefGet, defaultPrefsDoc]) (by simp [prefGet, defaultPrefsDoc])
    (by simp [prefGet, defaultPrefsDoc])

/-- Claim C2, counterexample: one logged day of 10 hours against the
default 7.5-hour target.  The response has debt = 0 and surplus = 2.5,
but the claimed relation surplus = max(0, −debt), with debt the clamped
response value, forces surplus = 0. -/
theorem sleep_debt_claim_false :
    (get_sleep_debt (some (defaultPrefsDoc "u")) 3 [⟨"a", 10, 3⟩]).surplus
      ≠ max 0 (-(get_sleep_debt (some (defaultPrefsDoc "u")) 3
          [⟨"a", 10, 3⟩]).debt) := by
  have h1 : (get_sleep_debt (some (defaultPrefsDoc "u")) 3 [⟨"a", 10, 3⟩]).surplus
      = 5/2 := by
    simp [get_sleep_debt, sleepWeekLogs, weekStart, weekday, prefGet, defaultPrefsDoc]
    norm_num [max_def]
    exact round2_eq_self (5/2) 250 (by norm_num)
  have h2 : (get_sleep_debt (some (defaultPrefsDoc "u")) 3 [⟨"a", 10, 3⟩]).debt
      = 0 := by
    simp [get_sleep_debt, sleepWeekLogs, weekStart, weekday, prefGet, defaultPrefsDoc]
    norm_num [max_def]
    exact round2_eq_self 0 0 (by norm_num)
  rw [h1, h2]
  norm_num

/-- Claim C2 (amended): over the logs of the current ISO week (Monday
through today, inclusive), the response reports days_logged = number of
logs, debt = max(0, days_logged × target − total_slept) and
surplus = max(0, total_slept − days_logged × target), each rounded to
two decimals; with zero logged days both are exactly zero; and for 3
logged days totaling 21 hours against the default 7.5-hour target,
debt = 1.5 and surplus = 0. -/
theorem sleep_debt_amended (prefs : Option PrefsDoc) (today : ℤ)
    (logs : List SleepDoc) :
    (get_sleep_debt prefs today logs).days_logged
        = (sleepWeekLogs today logs).length
    ∧ (get_sleep_debt prefs today logs).debt
        = round2 (max 0 (((sleepWeekLogs today logs).length : ℚ)
            * prefGet prefs (·.target_sleep_hours) (15/2)
            - ((sleepWeekLogs today logs).map (·.hours_slept)).sum))
    ∧ (get_sleep_debt prefs today logs).surplus
        = round2 (max 0 (((sleepWeekLogs today logs).map (·.hours_slept)).sum
            - ((sleepWeekLogs today logs).length : ℚ)
            * prefGet prefs (·.target_sleep_hours) (15/2)))
    ∧ (sleepWeekLogs today logs = [] →
        (get_sleep_debt prefs today logs).debt = 0
        ∧ (get_sleep_debt prefs today logs).surplus = 0)
    ∧ get_sleep_debt (some (defaultPrefsDoc "u")) 19999
        [⟨"a", 7, 19997⟩, ⟨"b", 7, 19998⟩, ⟨"c", 7, 19999⟩]
      = ⟨15/2, 3, 21, 45/2, 3/2, 0⟩ := by
  refine ⟨rfl, rfl, ?_, ?_, ?_⟩
  · simp only [get_sleep_debt]
    rw [neg_sub]
  · intro h
    simp only [get_sleep_debt, h]
    simp
    exact round2_eq_self 0 0 (by norm_num)
  · simp [get_sleep_debt, sleepWeekLogs, weekStart, weekday, prefGet,
      defaultPrefsDoc]
    norm_num [max_def]
    exact ⟨round2_eq_self 21 2100 (by norm_num),
      round2_eq_self (45/2) 2250 (by norm_num),
      round2_eq_self (3/2) 150 (by norm_num),
      round2_eq_self 0 0 (by norm_num)⟩

/-- Claim C2 witness: with an empty store both debt and surplus are
zero. -/
theorem sleep_debt_amended_witness :
    (get_sleep_debt (some (defaultPrefsDoc "u")) 3 []).debt = 0
    ∧ (get_sleep_debt (some (defaultPrefsDoc "u")) 3 []).surplus = 0 :=
  (sleep_debt_amended (some (defaultPrefsDoc "u")) 3 []).2.2.2.1 rfl

/-- Claim C4, counterexample: a log dated 2024-02-01 is counted by the
summary for month 2024-01, so the explicit-month window is not the
calendar month: the store end bound is the first day of the FOLLOWING
month and the range filter is inclusive on both sides. -/
theorem spending_summary_claim_false :
    (get_spending_summary (some "2024-01") 2024 3 15 "u"
        [⟨"a", "u", 50, "Food", "2024-02-01"⟩]).map (·.total)
      ≠ some (specMonthTotal "2024-01" "u"
        [⟨"a", "u", 50, "Food", "2024-02-01"⟩]) := by
  have hw : monthWindow "2024-01" = some ("2024-01-01", "2024-02-01") := by decide
  have hcode : (get_spending_summary (some "2024-01") 2024 3 15 "u"
      [⟨"a", "u", 50, "Food", "2024-02-01"⟩]).map (·.total) = some 50 := by
    simp +decide [get_spending_summary, hw, spendingAggregate, spendingWindowLogs]
    exact round2_eq_self 50 5000 (by norm_num)
  have hspec : specMonthTotal "2024-01" "u"
      [⟨"a", "u", 50, "Food", "2024-02-01"⟩] = 0 := by
    simp +decide [specMonthTotal, specInMonth]
  rw [hcode, hspec]
  norm_num

/-- Claim C4 (amended): GET /spending/summary with an explicit YYYY-MM
month aggregates exactly those logs of the requesting user whose date string
lies between the first of that month and the FIRST DAY OF THE FOLLOWING
month, both bounds inclusive (so the calendar month plus one day); with
no parameter it aggregates from the first of the current month through
today; grand total (rounded to two decimals), per-category totals and
per-day totals are computed over exactly that log set. -/
theorem spending_summary_amended :
    (∀ (ty tm td : ℕ) (uid : String) (logs : List SpendingDoc),
      get_spending_summary none ty tm td uid logs
        = some (spendingAggregate
            (spendingWindowLogs uid (isoDate ty tm 1) (isoDate ty tm td) logs)))
    ∧ (∀ (ms s e : String) (ty tm td : ℕ) (uid : String)
        (logs : List SpendingDoc), monthWindow ms = some (s, e) →
        get_spending_summary (some ms) ty tm td uid logs
          = some (spendingAggregate (spendingWindowLogs uid s e logs)))
    ∧ (∀ (uid s e : String) (logs : List SpendingDoc) (l : SpendingDoc),
        l ∈ spendingWindowLogs uid s e logs ↔
          l ∈ logs ∧ l.user_id = uid ∧ s ≤ l.date ∧ l.date ≤ e)
    ∧ (∀ (ms year m : String) (mi : ℤ),
        (splitDash ms.toList).map (fun cs => String.mk cs) = [year, m] →
        parseInt? m = some mi → mi ≠ 12 →
        monthWindow ms
          = some (year ++ "-" ++ m ++ "-01", year ++ "-" ++ pad2 (mi + 1) ++ "-01"))
    ∧ (∀ (ms year m : String) (yi : ℤ),
        (splitDash ms.toList).map (fun cs => String.mk cs) = [year, m] →
        parseInt? m = some 12 → parseInt? year = some yi →
        monthWindow ms
          = some (year ++ "-" ++ m ++ "-01", toString (yi + 1) ++ "-01-01"))
    ∧ (∀ sel : List SpendingDoc,
        (spendingAggregate sel).total = round2 ((sel.map (·.amount)).sum)
        ∧ ∀ c : String, (spendingAggregate sel).by_category c
            = ((sel.filter (·.category == c)).map (·.amount)).sum) := by
  refine ⟨fun _ _ _ _ _ => rfl, ?_, ?_, ?_, ?_, fun _ => ⟨rfl, fun _ => rfl⟩⟩
  · intro ms s e ty tm td uid logs h
    simp [get_spending_summary, h]
  · intro uid s e logs l
    simp [spendingWindowLogs, List.mem_filter]
    tauto
  · intro ms year m mi hsplit hm h12
    simp only [String.toList] at hsplit
    simp only [monthWindow, String.toList]
    rw [hsplit]
    simp [hm, h12]
  · intro ms year m yi hsplit hm hy
    simp only [String.toList] at hsplit
    simp only [monthWindow, String.toList]
    rw [hsplit]
    simp [hm, hy]

/-- Claim C4 witness: the january window at its concrete bounds. -/
theorem spending_summary_amended_witness :
    get_spending_summary (some "2024-01") 2024 3 15 "u" []
      = some (spendingAggregate
          (spendingWindowLogs "u" "2024-01-01" "2024-02-01" [])) :=
  spending_summary_amended.2.1 "2024-01" "2024-01-01" "2024-02-01" 2024 3 15 "u"
    [] (by decide)

/-- Claim C5: creating a sleep log advances the wake timestamp by one
day (86400 seconds) exactly when wake ≤ sleep, stores the elapsed hours
rounded to two decimals, and on the spec examples (sleep 23:00Z, wake
07:00Z next day; sleep 23:00Z, wake 01:00Z same day, timestamps in
seconds from day-0 midnight) yields 8.0 and 2.0 hours. -/
theorem log_sleep_hours_spec (uid : String) (s w : ℤ) (d : String) :
    (w ≤ s →
      (log_sleep uid s w d).wake_time = w + 86400
      ∧ (log_sleep uid s w d).hours_slept
          = round2 (((w + 86400 - s : ℤ) : ℚ) / 3600))
    ∧ (s < w →
      (log_sleep uid s w d).wake_time = w
      ∧ (log_sleep uid s w d).hours_slept
          = round2 (((w - s : ℤ) : ℚ) / 3600))
    ∧ (log_sleep "u" 82800 111600 "2024-01-02").hours_slept = 8
    ∧ (log_sleep "u" 82800 3600 "2024-01-01").wake_time = 90000
    ∧ (log_sleep "u" 82800 3600 "2024-01-01").hours_slept = 2 := by
  refine ⟨?_, ?_, ?_, ?_, ?_⟩
  · intro h
    simp [log_sleep, if_pos h]
  · intro h
    simp [log_sleep, if_neg (not_le.mpr h)]
  · simp only [log_sleep]
    norm_num
    exact round2_eq_self 8 800 (by norm_num)
  · simp only [log_sleep]
    norm_num
  · simp only [log_sleep]
    norm_num
    exact round2_eq_self 2 200 (by norm_num)

/-- Claim C5 witness: the cross-midnight branch at the concrete same-day
pair 23:00 / 01:00. -/
theorem log_sleep_hours_spec_witness :
    (log_sleep "u" 82800 3600 "2024-01-01").wake_time = 3600 + 86400
    ∧ (log_sleep "u" 82800 3600 "2024-01-01").hours_slept
        = round2 (((3600 + 86400 - 82800 : ℤ) : ℚ) / 3600) :=
  (log_sleep_hours_spec "u" 82800 3600 "2024-01-01").1 (by norm_num)

/-- Claim C7: the authenticator fails with Unauthenticated when no token
is present, else InvalidSession when no session matches the token, else
SessionExpired when the matched session has expired — regardless of
whether the user exists — else UserNotFound when the user of the session is
missing, else returns the user; every failure carries HTTP 401. -/
theorem get_current_user_taxonomy (cookie authHeader : Option String)
    (sessions : List Session) (users : List UserRec) (now : ℤ) :
    (extractToken cookie authHeader = none →
      get_current_user cookie authHeader sessions users now
        = .error .unauthenticated)
    ∧ (∀ tok, extractToken cookie authHeader = some tok →
        sessions.find? (·.session_token == tok) = none →
        get_current_user cookie authHeader sessions users now
          = .error .invalidSession)
    ∧ (∀ tok s, extractToken cookie authHeader = some tok →
        sessions.find? (·.session_token == tok) = some s →
        s.expires_at < now →
        get_current_user cookie authHeader sessions users now
          = .error .sessionExpired)
    ∧ (∀ tok s, extractToken cookie authHeader = some tok →
        sessions.find? (·.session_token == tok) = some s →
        now ≤ s.expires_at →
        users.find? (·.user_id == s.user_id) = none →
        get_current_user cookie authHeader sessions users now
          = .error .userNotFound)
    ∧ (∀ tok s u, extractToken cookie authHeader = some tok →
        sessions.find? (·.session_token == tok) = some s →
        now ≤ s.expires_at →
        users.find? (·.user_id == s.user_id) = some u →
        get_current_user cookie authHeader sessions users now = .ok u)
    ∧ (∀ e : AuthError, authStatus e = 401) := by
  refine ⟨?_, ?_, ?_, ?_, ?_, ?_⟩
  · intro h
    simp [get_current_user, h]
  · intro tok h1 h2
    simp [get_current_user, h1, h2]
  · intro tok s h1 h2 h3
    simp [get_current_user, h1, h2, h3]
  · intro tok s h1 h2 h3 h4
    simp [get_current_user, h1, h2, not_lt.mpr h3, h4]
  · intro tok s u h1 h2 h3 h4
    simp [get_current_user, h1, h2, not_lt.mpr h3, h4]
  · intro e
    cases e <;> rfl

/-- Claim C7 witness: an expired session is rejected with SessionExpired
even though its token matches and its user exists. -/
theorem get_current_user_taxonomy_witness :
    get_current_user none (some "Bearer tok")
      [⟨"u1", "tok", 100⟩] [⟨"u1", "a@b.c", "A", none⟩] 200
      = .error .sessionExpired :=
  (get_current_user_taxonomy none (some "Bearer tok")
      [⟨"u1", "tok", 100⟩] [⟨"u1", "a@b.c", "A", none⟩] 200).2.2.1
    "tok" ⟨"u1", "tok", 100⟩ (by decide) (by decide) (by norm_num)

/-- The fully zeroed record the degrade path persists. -/
def zeroNutritionRecord (uid : String) (req : NutritionCreate) :
    NutritionRecord :=
  { user_id := uid
    meal_description := req.meal_description
    calories := 0
    protein := 0
    is_healthy := false
    meal_type := req.meal_type
    date := req.date }

/-- Claim C6, counterexample: an adapter response whose brace-delimited
substring parses to the JSON object with calories = null is not of the
expected shape, yet the request does NOT succeed with zeroed fields —
the pydantic construction of the record (outside the try block) rejects
the null, the handler raises (HTTP 500), and nothing is persisted. -/
theorem log_nutrition_claim_false :
    (log_nutrition "u" ⟨"pizza", "dinner", "2024-01-01"⟩
        (.parsed ⟨some .null, none, none⟩) []).response = none
    ∧ (log_nutrition "u" ⟨"pizza", "dinner", "2024-01-01"⟩
        (.parsed ⟨some .null, none, none⟩) []).store = [] :=
  ⟨rfl, rfl⟩

/-- Claim C6 (amended): when the adapter call raises or times out, when
its response has no brace-delimited substring, or when decoding that
substring raises, the request still succeeds and persists the log with
calories 0, protein 0, is_healthy false; a decoded object whose present
fields coerce to the expected types also succeeds with the coerced
(or defaulted) values; but a decoded object containing a field value the
record validation rejects (such as null) fails the request after the
degrade handling, persisting nothing. -/
theorem log_nutrition_amended (uid : String) (req : NutritionCreate)
    (store : List NutritionRecord) :
    (log_nutrition uid req .raises store
        = ⟨some (zeroNutritionRecord uid req),
           store ++ [zeroNutritionRecord uid req]⟩)
    ∧ (log_nutrition uid req .noJsonObject store
        = ⟨some (zeroNutritionRecord uid req),
           store ++ [zeroNutritionRecord uid req]⟩)
    ∧ (∀ (o : ParsedNutrition) (c : ℤ) (p : ℚ) (h : Bool),
        coerceInt (extractFields (.parsed o)).1 = some c →
        coerceFloat (extractFields (.parsed o)).2.1 = some p →
        coerceBool (extractFields (.parsed o)).2.2 = some h →
        log_nutrition uid req (.parsed o) store
          = ⟨some { user_id := uid, meal_description := req.meal_description,
                    calories := c, protein := p, is_healthy := h,
                    meal_type := req.meal_type, date := req.date },
             store ++ [{ user_id := uid,
                         meal_description := req.meal_description,
                         calories := c, protein := p, is_healthy := h,
                         meal_type := req.meal_type, date := req.date }]⟩)
    ∧ (∀ outcome : AdapterOutcome,
        (log_nutrition uid req outcome store).response = none →
        (log_nutrition uid req outcome store).store = store) := by
  refine ⟨rfl, rfl, ?_, ?_⟩
  · intro o c p h hc hp hh
    simp [log_nutrition, hc, hp, hh]
  · intro outcome
    simp only [log_nutrition]
    split
    · simp
    · simp

/-- Claim C6 witness: a decoded object without any of the three keys
succeeds with the defaulted values 0, 0, false. -/
theorem log_nutrition_amended_witness :
    log_nutrition "u" ⟨"salad", "lunch", "2024-01-01"⟩
        (.parsed ⟨none, none, none⟩) []
      = ⟨some { user_id := "u", meal_description := "salad", calories := 0,
                protein := 0, is_healthy := false, meal_type := "lunch",
                date := "2024-01-01" },
         [{ user_id := "u", meal_description := "salad", calories := 0,
            protein := 0, is_healthy := false, meal_type := "lunch",
            date := "2024-01-01" }]⟩ :=
  (log_nutrition_amended "u" ⟨"salad", "lunch", "2024-01-01"⟩ []).2.2.1
    ⟨none, none, none⟩ 0 0 false (by simp [coerceInt, extractFields])
    (by simp [coerceFloat, extractFields]) (by simp [coerceBool, extractFields])

/-- Helper: after deleting the sessions of a user and appending one new
session of that user, filtering for that user yields exactly the new
session. -/
theorem filter_after_replace_eq (uid : String) (l : List Session) (ns : Session)
    (hns : ns.user_id = uid) :
    ((l.filter (fun s => s.user_id != uid)) ++ [ns]).filter (·.user_id == uid)
      = [ns] := by
  induction l with
  | nil => simp [List.filter, hns]
  | cons a t ih =>
    by_cases ha : a.user_id = uid <;> simp_all [List.filter_cons]

/-- Helper: the same replacement leaves the sessions of every other user
unchanged. -/
theorem filter_after_replace_ne (v uid : String) (l : List Session) (ns : Session)
    (hns : ns.user_id = uid) (hv : v ≠ uid) :
    ((l.filter (fun s => s.user_id != uid)) ++ [ns]).filter (·.user_id == v)
      = l.filter (fun s => s.user_id == v) := by
  have huv : (uid == v) = false := beq_eq_false_iff_ne.mpr (Ne.symm hv)
  induction l with
  | nil => simp [List.filter, hns, huv]
  | cons a t ih =>
    by_cases ha : a.user_id = uid <;> by_cases hav : a.user_id = v <;>
      simp_all [List.filter_cons]

/-- Helper: `find?` skips a prefix with no match. -/
theorem find?_append_none {α : Type} (p : α → Bool) (l1 l2 : List α)
    (h : l1.find? p = none) : (l1 ++ l2).find? p = l2.find? p := by
  induction l1 with
  | nil => simp
  | cons a t ih =>
    simp only [List.find?] at h
    cases hx : p a with
    | true => simp [hx] at h
    | false =>
      simp only [hx] at h
      simp only [List.cons_append, List.find?, hx]
      exact ih h

/-- Helper: in both branches of `create_session` the resulting session
collection is the old one purged of the resolved user followed by the
one new session. -/
theorem create_session_sessions (d : ExchangeData) (f : String) (e : ℤ)
    (st : DBState) :
    (create_session d f e st).1.sessions
      = st.sessions.filter (fun s => s.user_id != (create_session d f e st).2)
        ++ [⟨(create_session d f e st).2, d.session_token, e⟩] := by
  cases h : st.users.find? (·.email == d.email) <;> simp [create_session, h]

/-- Helper: a session creation preserves the at-most-one-session-per-user
invariant. -/
theorem create_session_preserves (d : ExchangeData) (f : String) (e : ℤ)
    (st : DBState) (h : atMostOneSession st) :
    atMostOneSession (create_session d f e st).1 := by
  intro v
  unfold sessionsOf
  rw [create_session_sessions]
  by_cases hv : v = (create_session d f e st).2
  · subst hv
    rw [filter_after_replace_eq (create_session d f e st).2 st.sessions
      ⟨(create_session d f e st).2, d.session_token, e⟩ rfl]
    simp
  · rw [filter_after_replace_ne v (create_session d f e st).2 st.sessions
      ⟨(create_session d f e st).2, d.session_token, e⟩ rfl hv]
    exact h v

/-- Helper: the invariant is preserved along any sequence of session
creations. -/
theorem runSessions_preserves (seq : List (ExchangeData × String × ℤ))
    (st : DBState) (h : atMostOneSession st) :
    atMostOneSession (runSessions seq st) := by
  induction seq generalizing st with
  | nil => exact h
  | cons a rest ih =>
    rcases a with ⟨d, f, e⟩
    exact ih _ (create_session_preserves d f e st h)

/-- Helper: a second login with the same email resolves to the user id
of the first and inserts no new user. -/
theorem create_session_reuse (d1 d2 : ExchangeData) (f1 f2 : String)
    (e1 e2 : ℤ) (st : DBState) (hemail : d1.email = d2.email) :
    (create_session d2 f2 e2 (create_session d1 f1 e1 st).1).2
      = (create_session d1 f1 e1 st).2
    ∧ (create_session d2 f2 e2 (create_session d1 f1 e1 st).1).1.users
      = (create_session d1 f1 e1 st).1.users := by
  have hpred : (fun x : UserRec => x.email == d2.email)
      = (fun x : UserRec => x.email == d1.email) := by
    funext x
    rw [hemail]
  cases h : st.users.find? (·.email == d1.email) with
  | some u =>
    have h2 : (create_session d1 f1 e1 st).2 = u.user_id := by
      simp [create_session, h]
    have hf : (create_session d1 f1 e1 st).1.users.find? (·.email == d2.email)
        = some u := by
      simp only [create_session, h]
      rw [hpred]
      exact h
    rw [h2]
    set st1 := (create_session d1 f1 e1 st).1 with hst1
    constructor
    · simp only [create_session, hf]
    · simp only [create_session, hf]
  | none =>
    have h2 : (create_session d1 f1 e1 st).2 = f1 := by
      simp [create_session, h]
    have hf : (create_session d1 f1 e1 st).1.users.find? (·.email == d2.email)
        = some ⟨f1, d1.email, d1.name, d1.picture⟩ := by
      simp only [create_session, h]
      rw [hpred, find?_append_none _ _ _ h]
      simp [List.find?]
    rw [h2]
    set st1 := (create_session d1 f1 e1 st).1 with hst1
    constructor
    · simp only [create_session, hf]
    · simp only [create_session, hf]

/-- Claim C8: every successful session creation leaves the resolved user
with exactly the one new session; along any sequence of session
creations from an empty store every user has at most one session; and a
second login with the same email reuses the resolved user id of the
first and creates no second user. -/
theorem single_session_per_user :
    (∀ (d : ExchangeData) (f : String) (e : ℤ) (st : DBState),
      sessionsOf (create_session d f e st).2 (create_session d f e st).1
        = [⟨(create_session d f e st).2, d.session_token, e⟩])
    ∧ (∀ seq : List (ExchangeData × String × ℤ),
        atMostOneSession (runSessions seq emptyDB))
    ∧ (∀ (d1 d2 : ExchangeData) (f1 f2 : String) (e1 e2 : ℤ) (st : DBState),
        d1.email = d2.email →
        (create_session d2 f2 e2 (create_session d1 f1 e1 st).1).2
          = (create_session d1 f1 e1 st).2
        ∧ (create_session d2 f2 e2 (create_session d1 f1 e1 st).1).1.users
          = (create_session d1 f1 e1 st).1.users) := by
  refine ⟨?_, ?_, create_session_reuse⟩
  · intro d f e st
    unfold sessionsOf
    rw [create_session_sessions]
    exact filter_after_replace_eq (create_session d f e st).2 st.sessions
      ⟨(create_session d f e st).2, d.session_token, e⟩ rfl
  · intro seq
    exact runSessions_preserves seq emptyDB (fun v => by simp [sessionsOf, emptyDB])

/-- Claim C8 witness: two logins with the same email from the empty
store resolve to the same user id and leave the user table unchanged by
the second login. -/
theorem single_session_per_user_witness :
    (create_session ⟨"a@b.c", "A", none, "t2"⟩ "f2" 9
        (create_session ⟨"a@b.c", "A", none, "t1"⟩ "f1" 5 emptyDB).1).2
      = (create_session ⟨"a@b.c", "A", none, "t1"⟩ "f1" 5 emptyDB).2
    ∧ (create_session ⟨"a@b.c", "A", none, "t2"⟩ "f2" 9
        (create_session ⟨"a@b.c", "A", none, "t1"⟩ "f1" 5 emptyDB).1).1.users
      = (create_session ⟨"a@b.c", "A", none, "t1"⟩ "f1" 5 emptyDB).1.users :=
  single_session_per_user.2.2 ⟨"a@b.c", "A", none, "t1"⟩
    ⟨"a@b.c", "A", none, "t2"⟩ "f1" "f2" 5 9 emptyDB rfl

/-- Claim C9: a log delete (any of the five structurally identical
dimension handlers) raises NotFound exactly when no stored document
matches both the given id and the id of the requesting user; in that case —
in particular when the id belongs to a different user — the store is
left unchanged. -/
theorem delete_log_ownership (logId uid : String) (store : List LogDoc) :
    ((delete_log logId uid store).notFound = true ↔
      ¬ ∃ d ∈ store, d.id = logId ∧ d.user_id = uid)
    ∧ ((delete_log logId uid store).notFound = true →
        (delete_log logId uid store).store = store)
    ∧ ((∃ d ∈ store, d.id = logId) →
        (∀ d ∈ store, d.id = logId → d.user_id ≠ uid) →
        (delete_log logId uid store).notFound = true
        ∧ (delete_log logId uid store).store = store) := by
  cases hany : store.any (fun d => d.id == logId && d.user_id == uid) with
  | true =>
    rw [List.any_eq_true] at hany
    obtain ⟨d, hd, hm⟩ := hany
    rw [Bool.and_eq_true, beq_iff_eq, beq_iff_eq] at hm
    have hex : ∃ d ∈ store, d.id = logId ∧ d.user_id = uid := ⟨d, hd, hm⟩
    have hany' : store.any (fun d => d.id == logId && d.user_id == uid)
        = true := by
      rw [List.any_eq_true]
      exact ⟨d, hd, by rw [Bool.and_eq_true, beq_iff_eq, beq_iff_eq]; exact hm⟩
    refine ⟨?_, ?_, ?_⟩
    · simp [delete_log, hany', hex]
    · simp [delete_log, hany']
    · intro _ hall
      exact absurd hm.2 (hall d hd hm.1)
  | false =>
    have hno : ¬ ∃ d ∈ store, d.id = logId ∧ d.user_id = uid := by
      intro ⟨d, hd, hm⟩
      have : store.any (fun d => d.id == logId && d.user_id == uid) = true := by
        rw [List.any_eq_true]
        exact ⟨d, hd, by rw [Bool.and_eq_true, beq_iff_eq, beq_iff_eq]; exact hm⟩
      rw [hany] at this
      exact Bool.false_ne_true this
    refine ⟨?_, ?_, ?_⟩
    · simp [delete_log, hany, hno]
    · intro _
      simp [delete_log, hany]
    · intro _ _
      simp [delete_log, hany]

/-- Claim C9 witness: deleting a log owned by another user returns
NotFound and leaves the store intact. -/
theorem delete_log_ownership_witness :
    (delete_log "log1" "alice" [⟨"log1", "bob"⟩]).notFound = true
    ∧ (delete_log "log1" "alice" [⟨"log1", "bob"⟩]).store = [⟨"log1", "bob"⟩] :=
  (delete_log_ownership "log1" "alice" [⟨"log1", "bob"⟩]).2.2
    ⟨⟨"log1", "bob"⟩, by simp, rfl⟩
    (by intro d hd _; simp at hd; subst hd; simp)

/-- Claim C10: when no preferences document exists for the user, a PUT
upserts a document holding only the user id and the supplied non-null
fields (none of the default goal values are filled in), and a GET
returns the fallback body with just the user id and a false setup flag
(HTTP 200, not an error). -/
theorem preferences_upsert_sparse (uid : String) (u : PreferencesUpdate)
    (store : List PrefsDoc) :
    ((∀ d ∈ store, d.user_id ≠ uid) →
      update_preferences uid u store = store ++ [upsertDoc uid u])
    ∧ ((∀ d ∈ store, d.user_id ≠ uid) →
      get_preferences uid store = .noDoc uid false)
    ∧ (upsertDoc uid u).user_id = uid
    ∧ (upsertDoc uid u).target_sleep_hours = u.target_sleep_hours
    ∧ (upsertDoc uid u).daily_calorie_goal = u.daily_calorie_goal
    ∧ (upsertDoc uid u).daily_protein_goal = u.daily_protein_goal
    ∧ (upsertDoc uid u).setup_completed = u.setup_completed := by
  refine ⟨?_, ?_, rfl, rfl, rfl, rfl, rfl⟩
  · intro hall
    have hany : store.any (·.user_id == uid) = false := by
      rw [Bool.eq_false_iff]
      intro hx
      rw [List.any_eq_true] at hx
      obtain ⟨d, hd, hm⟩ := hx
      exact hall d hd (by rwa [beq_iff_eq] at hm)
    simp [update_preferences, hany]
  · intro hall
    have hfind : store.find? (·.user_id == uid) = none := by
      rw [List.find?_eq_none]
      intro d hd
      simp only [beq_iff_eq]
      exact hall d hd
    simp [get_preferences, hfind]

/-- Claim C10 witness: with an empty store, updating only the calorie
goal inserts the partial document and a GET returns the fallback. -/
theorem preferences_upsert_sparse_witness :
    update_preferences "u" { daily_calorie_goal := some 1800 } []
      = [upsertDoc "u" { daily_calorie_goal := some 1800 }]
    ∧ get_preferences "u" [] = .noDoc "u" false :=
  ⟨(preferences_upsert_sparse "u" { daily_calorie_goal := some 1800 } []).1
      (by intro d hd; simp at hd),
   (preferences_upsert_sparse "u" { daily_calorie_goal := some 1800 } []).2.1
      (by intro d hd; simp at hd)⟩

end MyWellness
